import Mathlib

/-!
# Verification of the Recipe Costing & Pricing Engine

Shallow embedding of the costing, pricing, validation and dashboard
aggregation functions of the confeitaria-app repository.  JavaScript
numbers are modelled as rationals (`ℚ`); a JavaScript division whose
result may be non-finite (`Infinity`/`NaN`) is modelled as `Option ℚ`
with `none` standing for the non-finite outcome.  The JavaScript
truthiness idioms `x || d` (falsy coalescing, where `0` counts as
absent) are modelled explicitly.
-/

namespace Confeitaria

/-- JavaScript `x || d` on an optional number: `undefined` and `0` are
falsy and yield the default `d`; every other number is returned as is.
This is NOT nullish coalescing (`x ?? d`), which keeps an explicit `0`. -/
def jsOrOpt (x : Option ℚ) (d : ℚ) : ℚ :=
  match x with
  | none => d
  | some v => if v = 0 then d else v

/-- JavaScript `x || d` on a number that is always present: `0` is falsy
and yields the default `d`. -/
def jsOr (x d : ℚ) : ℚ := if x = 0 then d else x

/-- JavaScript division `a / b` restricted to finite results: `none`
models the `Infinity`/`NaN` produced when the divisor is `0`. -/
def jsDiv (a b : ℚ) : Option ℚ :=
  if b = 0 then none else some (a / b)

/-- `Omit of Ingredient without id` from `types/firestore.ts`: one ingredient
line of a recipe form. -/
structure IngredientForm where
  name : String
  quantity : ℚ
  unit : String
  costPerUnit : ℚ
  supplier : Option String := none
  notes : Option String := none
deriving Repr, DecidableEq

/-- `RecipeFormData` from `types/firestore.ts` (the fields consumed by
the costing engine and the validator). -/
structure RecipeFormData where
  title : String
  description : String
  category : String
  servings : ℚ
  ingredients : List IngredientForm
  instructions : List String
  prepTime : ℚ
  cookTime : ℚ
  tags : List String
  difficulty : String
  marginPercentage : ℚ
  laborCostPerHour : Option ℚ := none
  overheadPercentage : Option ℚ := none
deriving Repr, DecidableEq

/-- The costs record of a persisted `Recipe` (all fields finite). -/
structure Costs where
  totalIngredientsCost : ℚ
  laborCost : ℚ
  overheadCost : ℚ
  totalCost : ℚ
  costPerServing : ℚ
deriving Repr, DecidableEq

/-- Result of `calculateRecipeCosts`: identical to `Costs` except that
`costPerServing` is the outcome of a raw JavaScript division and hence
may be non-finite (`none`). -/
structure CostsResult where
  totalIngredientsCost : ℚ
  laborCost : ℚ
  overheadCost : ℚ
  totalCost : ℚ
  costPerServing : Option ℚ
deriving Repr, DecidableEq

/-- The pricing record of a persisted `Recipe`. -/
structure Pricing where
  marginPercentage : ℚ
  suggestedPrice : ℚ
  finalPrice : ℚ
  profit : ℚ
  profitMargin : ℚ
deriving Repr, DecidableEq

/-- `calculateRecipeCosts` from `firestore.ts` (the service layer used
by `createRecipe`): ingredient sum, labor from total time with a falsy
default of 15 R$/h, overhead as a falsy-default 10% of the ingredient
cost, and a raw division by `servings` for the per-serving cost. -/
def calculateRecipeCosts (recipeData : RecipeFormData) : CostsResult :=
  let totalIngredientsCost :=
    recipeData.ingredients.foldl
      (fun sum ingredient => sum + ingredient.quantity * ingredient.costPerUnit) 0
  let laborCostPerHour := jsOrOpt recipeData.laborCostPerHour 15
  let totalTimeHours := (recipeData.prepTime + recipeData.cookTime) / 60
  let laborCost := totalTimeHours * laborCostPerHour
  let overheadPercentage := jsOrOpt recipeData.overheadPercentage 10
  let overheadCost := totalIngredientsCost * (overheadPercentage / 100)
  let totalCost := totalIngredientsCost + laborCost + overheadCost
  let costPerServing := jsDiv totalCost recipeData.servings
  { totalIngredientsCost := totalIngredientsCost
    laborCost := laborCost
    overheadCost := overheadCost
    totalCost := totalCost
    costPerServing := costPerServing }

/-- `calculateRecipePricing` from `firestore.ts`: suggested price is
`costPerServing * (1 + margin/100)` (margin on cost), the final price
equals the suggested price, and the real margin is profit over cost
(guarded to `0` when `costPerServing ≤ 0`). -/
def calculateRecipePricing (costs : Costs) (marginPercentage : ℚ) : Pricing :=
  let suggestedPrice := costs.costPerServing * (1 + marginPercentage / 100)
  let finalPrice := suggestedPrice
  let profit := finalPrice - costs.costPerServing
  let profitMargin :=
    if costs.costPerServing > 0 then (profit / costs.costPerServing) * 100 else 0
  { marginPercentage := marginPercentage
    suggestedPrice := suggestedPrice
    finalPrice := finalPrice
    profit := profit
    profitMargin := profitMargin }

/-! ## Live-preview helpers from `NovaReceita.tsx`

The new-recipe form keeps a partially filled `formData`; every numeric
read is defended with `|| default`.  The preview price uses the
margin-on-price formula with an explicit guard returning `0` for a
margin of 100% or more, and the per-serving cost divides by
`Math.max(servings || 1, 1)`. -/

/-- The slice of the form state read by the preview calculators. -/
structure NovaFormState where
  ingredients : List IngredientForm
  servings : ℚ
  prepTime : ℚ
  cookTime : ℚ
  marginPercentage : ℚ
  laborCostPerHour : ℚ
  overheadPercentage : ℚ
deriving Repr, DecidableEq

/-- `calculateIngredientsCost` in `NovaReceita.tsx`. -/
def novaIngredientsCost (formData : NovaFormState) : ℚ :=
  formData.ingredients.foldl
    (fun sum ing => sum + jsOr ing.quantity 0 * jsOr ing.costPerUnit 0) 0

/-- `calculateLaborCost` in `NovaReceita.tsx` (note the falsy default of
`0`, not 15, for the hourly rate). -/
def novaLaborCost (formData : NovaFormState) : ℚ :=
  let totalTimeHours := (jsOr formData.prepTime 0 + jsOr formData.cookTime 0) / 60
  totalTimeHours * jsOr formData.laborCostPerHour 0

/-- `calculateOverheadCost` in `NovaReceita.tsx`: a falsy-default-0
percentage of the ingredient cost. -/
def novaOverheadCost (formData : NovaFormState) : ℚ :=
  novaIngredientsCost formData * (jsOr formData.overheadPercentage 0 / 100)

/-- `calculateTotalCost` in `NovaReceita.tsx`. -/
def novaTotalCost (formData : NovaFormState) : ℚ :=
  novaIngredientsCost formData + novaLaborCost formData + novaOverheadCost formData

/-- `calculateCostPerServing` in `NovaReceita.tsx`:
`totalCost / Math.max(servings || 1, 1)`, a total function. -/
def novaCostPerServing (formData : NovaFormState) : ℚ :=
  novaTotalCost formData / max (jsOr formData.servings 1) 1

/-- `calculateSuggestedPrice` in `NovaReceita.tsx`: margin-on-price
`costPerServing / (1 - margin/100)` with an explicit guard returning
`0` once the margin reaches 100%. -/
def novaSuggestedPrice (formData : NovaFormState) : ℚ :=
  let costPerServing := novaCostPerServing formData
  let marginDecimal := jsOr formData.marginPercentage 0 / 100
  if marginDecimal ≥ 1 then 0
  else costPerServing / (1 - marginDecimal)

/-! ## The secondary hook `useCostCalculation`
(`hooks/useOptimizedCalculations.ts`): destructuring defaults
`laborCostPerHour = 20` and `overheadPercentage = 10` (true nullish
semantics, an explicit `0` is kept), and overhead computed on the
ingredients-plus-labor base. -/

/-- The cost fields produced by `useCostCalculation`. -/
structure HookCostResult where
  totalIngredientsCost : ℚ
  laborCost : ℚ
  overheadCost : ℚ
  totalCost : ℚ
  costPerServing : ℚ
  suggestedPrice : ℚ
deriving Repr, DecidableEq

/-- `useCostCalculation` (cost part).  The optional props use
JavaScript destructuring defaults, which apply only when the value is
`undefined` — hence `Option.getD`, not falsy coalescing. -/
def useCostCalculation (ingredients : List IngredientForm)
    (servings prepTime cookTime marginPercentage : ℚ)
    (laborCostPerHourOpt overheadPercentageOpt : Option ℚ) : HookCostResult :=
  let laborCostPerHour := laborCostPerHourOpt.getD 20
  let overheadPercentage := overheadPercentageOpt.getD 10
  let totalIngredientsCost :=
    ingredients.foldl (fun total ing => total + ing.quantity * ing.costPerUnit) 0
  let totalTimeInHours := (prepTime + cookTime) / 60
  let laborCost := totalTimeInHours * laborCostPerHour
  let overheadCost := (totalIngredientsCost + laborCost) * (overheadPercentage / 100)
  let totalCost := totalIngredientsCost + laborCost + overheadCost
  let costPerServing := if servings > 0 then totalCost / servings else 0
  let suggestedPrice := costPerServing * (1 + marginPercentage / 100)
  { totalIngredientsCost := totalIngredientsCost
    laborCost := laborCost
    overheadCost := overheadCost
    totalCost := totalCost
    costPerServing := costPerServing
    suggestedPrice := suggestedPrice }

/-! ## The validator `validateRecipeData` (`firestore.ts`) -/

/-- `interface ValidationResult` from `types/firestore.ts`. -/
structure ValidationResult where
  isValid : Bool
  errors : List String
deriving Repr, DecidableEq

/-- Error message for a missing title. -/
def titleErr : String := "Título da receita é obrigatório"

/-- Error message for a missing category. -/
def categoryErr : String := "Categoria é obrigatória"

/-- Error message for a non-positive servings count. -/
def servingsErr : String := "Número de porções deve ser maior que zero"

/-- Error message for an empty ingredient list. -/
def ingredientsErr : String := "Pelo menos um ingrediente é obrigatório"

/-- Per-ingredient error for a missing name (`index` is 0-based, the
message shows it 1-based). -/
def ingNameErr (index : Nat) : String :=
  "Ingrediente " ++ toString (index + 1) ++ ": Nome é obrigatório"

/-- Per-ingredient error for a non-positive quantity. -/
def ingQtyErr (index : Nat) : String :=
  "Ingrediente " ++ toString (index + 1) ++ ": Quantidade deve ser maior que zero"

/-- Per-ingredient error for a non-positive unit cost. -/
def ingCostErr (index : Nat) : String :=
  "Ingrediente " ++ toString (index + 1) ++ ": Custo por unidade deve ser maior que zero"

/-- Error message for a margin outside the open interval (0, 100). -/
def marginErr : String := "Margem de lucro deve estar entre 1% e 99%"

/-- The body of the `forEach` over the (index, ingredient) pairs in
`validateRecipeData`, accumulating the pushed errors.  JavaScript
truthiness on numbers (`!x` iff `x` is `0`) is spelled out, so
`!x || x <= 0` becomes `x = 0 ∨ x ≤ 0`. -/
def ingredientCheckStep (acc : List String) (p : Nat × IngredientForm) : List String :=
  let acc := if p.2.name.trim = "" then acc ++ [ingNameErr p.1] else acc
  let acc :=
    if p.2.quantity = 0 ∨ p.2.quantity ≤ 0 then acc ++ [ingQtyErr p.1] else acc
  if p.2.costPerUnit = 0 ∨ p.2.costPerUnit ≤ 0 then acc ++ [ingCostErr p.1] else acc

/-- `validateRecipeData` from `firestore.ts`, modelled as the same
sequence of conditional `errors.push(...)` steps. -/
def validateRecipeData (data : RecipeFormData) : ValidationResult :=
  let errors : List String := []
  let errors := if data.title.trim = "" then errors ++ [titleErr] else errors
  let errors := if data.category.trim = "" then errors ++ [categoryErr] else errors
  let errors :=
    if data.servings = 0 ∨ data.servings ≤ 0 then errors ++ [servingsErr] else errors
  let errors :=
    if data.ingredients.length = 0 then errors ++ [ingredientsErr] else errors
  let errors := data.ingredients.enum.foldl ingredientCheckStep errors
  let errors :=
    if data.marginPercentage = 0 ∨ data.marginPercentage ≤ 0 ∨
        data.marginPercentage ≥ 100 then
      errors ++ [marginErr]
    else errors
  { isValid := errors.length = 0, errors := errors }

/-- The errors contributed by one (0-based index, ingredient) pair, per
the specified per-ingredient check order name, quantity, cost. -/
def ingredientRuleErrors (p : Nat × IngredientForm) : List String :=
  (if p.2.name.trim = "" then [ingNameErr p.1] else []) ++
  (if p.2.quantity ≤ 0 then [ingQtyErr p.1] else []) ++
  (if p.2.costPerUnit ≤ 0 then [ingCostErr p.1] else [])

/-- The specified error list: one error per violated rule, in the fixed
order title, category, servings, ingredient-list presence, per-ingredient
checks in list order, then margin. -/
def specErrors (data : RecipeFormData) : List String :=
  (if data.title.trim = "" then [titleErr] else []) ++
  (if data.category.trim = "" then [categoryErr] else []) ++
  (if data.servings ≤ 0 then [servingsErr] else []) ++
  (if data.ingredients = [] then [ingredientsErr] else []) ++
  data.ingredients.enum.flatMap ingredientRuleErrors ++
  (if data.marginPercentage ≤ 0 ∨ 100 ≤ data.marginPercentage then [marginErr] else [])

/-- Indicator count of violated rules: how many of the independent
validation rules the form data breaks. -/
def violatedRuleCount (data : RecipeFormData) : Nat :=
  (if data.title.trim = "" then 1 else 0) +
  (if data.category.trim = "" then 1 else 0) +
  (if data.servings ≤ 0 then 1 else 0) +
  (if data.ingredients = [] then 1 else 0) +
  (data.ingredients.map (fun ing =>
    (if ing.name.trim = "" then 1 else 0) +
    (if ing.quantity ≤ 0 then 1 else 0) +
    (if ing.costPerUnit ≤ 0 then 1 else 0))).sum +
  (if data.marginPercentage ≤ 0 ∨ 100 ≤ data.marginPercentage then 1 else 0)

/-! ## Dashboard aggregation (`getDashboardStats` in `firestore.ts`) -/

/-- The slice of a persisted `Recipe` the dashboard reduction reads. -/
structure RecipeDoc where
  id : String
  title : String
  costs : Costs
  pricing : Pricing
  createdAt : ℚ
deriving Repr, DecidableEq

/-- The `mostProfitableRecipe` projection in `DashboardStats`. -/
structure MostProfitable where
  id : String
  title : String
  profit : ℚ
deriving Repr, DecidableEq

/-- The `recentRecipes` projection in `DashboardStats`. -/
structure RecentRecipe where
  id : String
  title : String
  createdAt : ℚ
deriving Repr, DecidableEq

/-- `interface DashboardStats` from `types/firestore.ts`. -/
structure DashboardStats where
  totalRecipes : Nat
  averageCost : ℚ
  averageMargin : ℚ
  mostProfitableRecipe : Option MostProfitable := none
  recentRecipes : List RecentRecipe
deriving Repr, DecidableEq

/-- One step of the `reduce` that finds the most profitable recipe:
`recipe.pricing.profit > (max?.pricing.profit || 0) ? recipe : max`. -/
def mostProfitableStep (max recipe : RecipeDoc) : RecipeDoc :=
  if recipe.pricing.profit > jsOr max.pricing.profit 0 then recipe else max

/-- `getDashboardStats` from `firestore.ts`, as a function of the
already-fetched recipe list (the fetched list is ordered by creation
time descending, so `recentRecipes` is the first five).  A JavaScript
`reduce` without an initial value starts from the first element. -/
def getDashboardStats (recipes : List RecipeDoc) : DashboardStats :=
  if recipes.length = 0 then
    { totalRecipes := 0
      averageCost := 0
      averageMargin := 0
      recentRecipes := [] }
  else
    let totalCost := recipes.foldl (fun sum recipe => sum + recipe.costs.totalCost) 0
    let totalMargin :=
      recipes.foldl (fun sum recipe => sum + recipe.pricing.profitMargin) 0
    let mostProfitable :=
      match recipes with
      | [] => none
      | first :: rest => some (rest.foldl mostProfitableStep first)
    let recentRecipes := (recipes.take 5).map
      (fun recipe => RecentRecipe.mk recipe.id recipe.title recipe.createdAt)
    { totalRecipes := recipes.length
      averageCost := totalCost / recipes.length
      averageMargin := totalMargin / recipes.length
      mostProfitableRecipe :=
        mostProfitable.map (fun m => MostProfitable.mk m.id m.title m.pricing.profit)
      recentRecipes := recentRecipes }

/-! ## General lemmas -/

theorem jsOr_zero_right (x : ℚ) : jsOr x 0 = x := by
  unfold jsOr
  split <;> simp_all

theorem foldl_add_map {α : Type} (f : α → ℚ) (l : List α) (a : ℚ) :
    l.foldl (fun s x => s + f x) a = a + (l.map f).sum := by
  induction l generalizing a with
  | nil => simp
  | cons x xs ih => simp [ih, add_assoc]

/-! ## Validator lemmas -/

theorem eq_zero_or_le_zero (x : ℚ) : (x = 0 ∨ x ≤ 0) ↔ x ≤ 0 := by
  constructor
  · rintro (h | h)
    · exact le_of_eq h
    · exact h
  · exact Or.inr

theorem margin_cond (x : ℚ) : (x = 0 ∨ x ≤ 0 ∨ x ≥ 100) ↔ (x ≤ 0 ∨ 100 ≤ x) := by
  constructor
  · rintro (h | h | h)
    · exact Or.inl (le_of_eq h)
    · exact Or.inl h
    · exact Or.inr h
  · rintro (h | h)
    · exact Or.inr (Or.inl h)
    · exact Or.inr (Or.inr h)

theorem append_ite_singleton (l : List String) (c : Prop) [Decidable c]
    (e : String) :
    (if c then l ++ [e] else l) = l ++ (if c then [e] else []) := by
  split <;> simp

theorem ingredientCheckStep_eq (acc : List String) (p : Nat × IngredientForm) :
    ingredientCheckStep acc p = acc ++ ingredientRuleErrors p := by
  unfold ingredientCheckStep ingredientRuleErrors
  simp only [eq_zero_or_le_zero]
  by_cases h1 : p.2.name.trim = "" <;> by_cases h2 : p.2.quantity ≤ 0 <;>
    by_cases h3 : p.2.costPerUnit ≤ 0 <;> simp [h1, h2, h3]

theorem foldl_ingredientCheckStep (l : List (Nat × IngredientForm))
    (acc : List String) :
    l.foldl ingredientCheckStep acc = acc ++ l.flatMap ingredientRuleErrors := by
  induction l generalizing acc with
  | nil => simp
  | cons p t ih =>
      rw [List.foldl_cons, ingredientCheckStep_eq, ih, List.flatMap_cons,
        List.append_assoc]

theorem validateRecipeData_errors (data : RecipeFormData) :
    (validateRecipeData data).errors = specErrors data := by
  simp only [validateRecipeData, specErrors, foldl_ingredientCheckStep,
    eq_zero_or_le_zero, margin_cond, List.length_eq_zero, List.nil_append]
  by_cases h1 : data.title.trim = "" <;>
    by_cases h2 : data.category.trim = "" <;>
    by_cases h3 : data.servings ≤ 0 <;>
    by_cases h4 : data.ingredients = [] <;>
    by_cases h5 : data.marginPercentage ≤ 0 ∨ 100 ≤ data.marginPercentage <;>
    simp [h1, h2, h3, h4, h5]

theorem validateRecipeData_isValid (data : RecipeFormData) :
    (validateRecipeData data).isValid = true ↔
      (validateRecipeData data).errors = [] := by
  have h : (validateRecipeData data).isValid =
      decide ((validateRecipeData data).errors.length = 0) := rfl
  rw [h]
  simp [List.length_eq_zero]

theorem ingredientRuleErrors_length (p : Nat × IngredientForm) :
    (ingredientRuleErrors p).length =
      (if p.2.name.trim = "" then 1 else 0) +
      (if p.2.quantity ≤ 0 then 1 else 0) +
      (if p.2.costPerUnit ≤ 0 then 1 else 0) := by
  unfold ingredientRuleErrors
  by_cases h1 : p.2.name.trim = "" <;> by_cases h2 : p.2.quantity ≤ 0 <;>
    by_cases h3 : p.2.costPerUnit ≤ 0 <;> simp [h1, h2, h3]

theorem mem_ite_singleton {a b : String} {c : Prop} [Decidable c] :
    a ∈ (if c then [b] else []) ↔ (c ∧ a = b) := by
  split <;> simp_all

theorem marginErr_ne_ingrediente (t : String) :
    marginErr ≠ "Ingrediente " ++ t := by
  intro h
  have hd := congrArg String.data h
  rw [String.data_append] at hd
  have h2 := congrArg List.head? hd
  simp [marginErr] at h2

theorem servingsErr_ne_ingrediente (t : String) :
    servingsErr ≠ "Ingrediente " ++ t := by
  intro h
  have hd := congrArg String.data h
  rw [String.data_append] at hd
  have h2 := congrArg List.head? hd
  simp [servingsErr] at h2

theorem mem_ingredientRuleErrors_shape (e : String) (p : Nat × IngredientForm)
    (h : e ∈ ingredientRuleErrors p) : ∃ t, e = "Ingrediente " ++ t := by
  unfold ingredientRuleErrors at h
  simp only [List.mem_append] at h
  have shape : ∀ (c : Prop) [Decidable c] (s : String),
      e ∈ (if c then ["Ingrediente " ++ s] else []) → ∃ t, e = "Ingrediente " ++ t := by
    intro c _ s hm
    split at hm
    · exact ⟨s, List.mem_singleton.mp hm⟩
    · exact absurd hm (List.not_mem_nil e)
  rcases h with (h | h) | h
  · exact shape _ _ (by simpa [ingNameErr, String.append_assoc] using h)
  · exact shape _ _ (by simpa [ingQtyErr, String.append_assoc] using h)
  · exact shape _ _ (by simpa [ingCostErr, String.append_assoc] using h)

/-! ## Dashboard lemmas -/

theorem mostProfitableStep_eq (a b : RecipeDoc) :
    mostProfitableStep a b =
      if a.pricing.profit < b.pricing.profit then b else a := by
  unfold mostProfitableStep
  rw [jsOr_zero_right]

theorem foldl_mostProfitableStep (t : List RecipeDoc) (a : RecipeDoc) :
    ∃ l₁ l₂, a :: t = l₁ ++ (t.foldl mostProfitableStep a) :: l₂ ∧
      (∀ x ∈ l₁,
        x.pricing.profit < (t.foldl mostProfitableStep a).pricing.profit) ∧
      (∀ x ∈ l₂,
        x.pricing.profit ≤ (t.foldl mostProfitableStep a).pricing.profit) := by
  induction t generalizing a with
  | nil =>
      refine ⟨[], [], rfl, by simp, by simp⟩
  | cons b t ih =>
      rw [List.foldl_cons, mostProfitableStep_eq]
      by_cases hc : a.pricing.profit < b.pricing.profit
      · rw [if_pos hc]
        obtain ⟨l₁, l₂, hdec, hlt, hle⟩ := ih b
        refine ⟨a :: l₁, l₂, ?_, ?_, hle⟩
        · rw [List.cons_append, ← hdec]
        · intro x hx
          rcases List.mem_cons.mp hx with hxa | hxl
          · subst hxa
            cases l₁ with
            | nil =>
                simp only [List.nil_append] at hdec
                have hb := (List.cons.inj hdec).1
                rw [← hb]
                exact hc
            | cons c cs =>
                have hb := (List.cons.inj hdec).1
                have hbmem : b ∈ c :: cs := by
                  rw [hb]; exact List.mem_cons_self c cs
                exact lt_trans hc (hlt b hbmem)
          · exact hlt x hxl
      · rw [if_neg hc]
        obtain ⟨l₁, l₂, hdec, hlt, hle⟩ := ih a
        cases l₁ with
        | nil =>
            simp only [List.nil_append] at hdec
            obtain ⟨ha, ht⟩ := List.cons.inj hdec
            refine ⟨[], b :: t, ?_, by simp, ?_⟩
            · rw [List.nil_append, ← ha]
            · intro x hx
              rcases List.mem_cons.mp hx with hxb | hxt
              · subst hxb
                rw [← ha]
                exact le_of_not_lt hc
              · exact hle x (ht ▸ hxt)
        | cons c cs =>
            obtain ⟨ha, ht⟩ := List.cons.inj hdec
            have haprof : a.pricing.profit <
                (t.foldl mostProfitableStep a).pricing.profit := by
              refine hlt a ?_
              rw [ha]; exact List.mem_cons_self c cs
            refine ⟨a :: b :: cs, l₂, ?_, ?_, hle⟩
            · simp only [List.append_eq] at ht
              rw [List.cons_append, List.cons_append]
              exact congrArg (fun l => a :: b :: l) ht
            · intro x hx
              rcases List.mem_cons.mp hx with hxa | hx2
              · subst hxa; exact haprof
              · rcases List.mem_cons.mp hx2 with hxb | hxcs
                · subst hxb
                  exact lt_of_le_of_lt (le_of_not_lt hc) haprof
                · exact hlt x (List.mem_cons_of_mem c hxcs)

/-! ## Claim C1 -/

/-- Claim C1, counterexample: the authoritative `calculateRecipePricing`
does NOT apply the margin-on-price formula.  At costPerServing 2.9269 and
marginPercentage 35 it returns 3.951315, which is not approximately
4.5029 (it is more than 0.5 away) and differs from
`costPerServing / (1 - 35/100)`. -/
theorem C1_counterexample :
    let c : Costs := { totalIngredientsCost := 765/100, laborCost := 15,
                       overheadCost := 765/1000, totalCost := 23415/1000,
                       costPerServing := 29269/10000 }
    (calculateRecipePricing c 35).suggestedPrice = 3951315/1000000 ∧
    (45029/10000 : ℚ) - (calculateRecipePricing c 35).suggestedPrice > 1/2 ∧
    (calculateRecipePricing c 35).suggestedPrice ≠
      c.costPerServing / (1 - 35/100) := by
  refine ⟨by norm_num [calculateRecipePricing], ?_, ?_⟩ <;>
    norm_num [calculateRecipePricing]

/-- Claim C1, amended: the authoritative pricing computation invoked at
recipe creation (`calculateRecipePricing`, called by `createRecipe`)
uses the margin-on-cost formula
`suggestedPrice = costPerServing * (1 + marginPercentage/100)`; for
every valid margin in (0, 100) and positive cost per serving this is
strictly below the margin-on-price value
`costPerServing / (1 - marginPercentage/100)` claimed by the spec (the
division formula lives only in the `NovaReceita` preview helper). -/
theorem C1_amended (costs : Costs) (m : ℚ)
    (h0 : 0 < m) (h1 : m < 100) (hc : 0 < costs.costPerServing) :
    (calculateRecipePricing costs m).suggestedPrice =
      costs.costPerServing * (1 + m / 100) ∧
    (calculateRecipePricing costs m).suggestedPrice <
      costs.costPerServing / (1 - m / 100) := by
  refine ⟨rfl, ?_⟩
  have hm : (0:ℚ) < 1 - m / 100 := by linarith
  rw [lt_div_iff₀ hm]
  show costs.costPerServing * (1 + m / 100) * (1 - m / 100) < costs.costPerServing
  have hsq : 0 < costs.costPerServing * (m / 100) ^ 2 := by positivity
  nlinarith [hsq]

/-- Claim C1, witness for the amended theorem at costPerServing 2.9269
and margin 35. -/
theorem C1_amended_witness :
    let c : Costs := { totalIngredientsCost := 765/100, laborCost := 15,
                       overheadCost := 765/1000, totalCost := 23415/1000,
                       costPerServing := 29269/10000 }
    (calculateRecipePricing c 35).suggestedPrice =
      c.costPerServing * (1 + 35 / 100) ∧
    (calculateRecipePricing c 35).suggestedPrice <
      c.costPerServing / (1 - 35 / 100) :=
  C1_amended _ 35 (by norm_num) (by norm_num) (by norm_num)

/-! ## Claim C2 -/

/-- Claim C2, counterexample: the labor default is falsy coalescing
(`||`), not nullish (`??`).  With an explicitly supplied
`laborCostPerHour = 0` and one hour of total time, the code computes a
labor cost of 15, not the 0 the claimed formula
`hours * (laborCostPerHour ?? 15)` yields. -/
theorem C2_counterexample :
    let d : RecipeFormData := { title := "Bolo", description := "",
                                category := "bolos", servings := 1,
                                ingredients := [], instructions := [],
                                prepTime := 60, cookTime := 0, tags := [],
                                difficulty := "médio", marginPercentage := 35,
                                laborCostPerHour := some 0,
                                overheadPercentage := none }
    (calculateRecipeCosts d).laborCost ≠
      ((d.prepTime + d.cookTime) / 60) * (d.laborCostPerHour.getD 15) := by
  norm_num [calculateRecipeCosts, jsOrOpt]

/-- Claim C2, amended: `calculateRecipeCosts` returns
`totalIngredientsCost = Σ quantity * costPerUnit`,
`laborCost = ((prepTime + cookTime)/60) * rate` where the rate defaults
to 15 when `laborCostPerHour` is absent OR 0 (JavaScript falsy
coalescing), and `totalCost` exactly equal to
`totalIngredientsCost + laborCost + overheadCost`. -/
theorem C2_amended (d : RecipeFormData) :
    (calculateRecipeCosts d).totalIngredientsCost =
      (d.ingredients.map (fun ing => ing.quantity * ing.costPerUnit)).sum ∧
    (calculateRecipeCosts d).laborCost =
      ((d.prepTime + d.cookTime) / 60) * jsOrOpt d.laborCostPerHour 15 ∧
    (calculateRecipeCosts d).totalCost =
      (calculateRecipeCosts d).totalIngredientsCost +
        (calculateRecipeCosts d).laborCost +
        (calculateRecipeCosts d).overheadCost := by
  refine ⟨?_, rfl, rfl⟩
  simpa using foldl_add_map (fun ing => ing.quantity * ing.costPerUnit)
    d.ingredients 0

/-! ## Claim C3 -/

/-- Claim C3, counterexample: the overhead default is falsy coalescing
(`||`), not nullish (`??`).  With an explicitly supplied
`overheadPercentage = 0` and 100 of ingredient cost, the code computes
an overhead of 10, not the 0 the claimed formula
`totalIngredientsCost * ((overheadPercentage ?? 10)/100)` yields. -/
theorem C3_counterexample :
    let d : RecipeFormData := { title := "Bolo", description := "",
                                category := "bolos", servings := 1,
                                ingredients := [{ name := "Farinha",
                                                  quantity := 1, unit := "kg",
                                                  costPerUnit := 100 }],
                                instructions := [], prepTime := 0,
                                cookTime := 0, tags := [],
                                difficulty := "médio", marginPercentage := 35,
                                laborCostPerHour := none,
                                overheadPercentage := some 0 }
    (calculateRecipeCosts d).overheadCost ≠
      (calculateRecipeCosts d).totalIngredientsCost *
        (d.overheadPercentage.getD 10 / 100) := by
  norm_num [calculateRecipeCosts, jsOrOpt]

/-- Claim C3, amended: in the canonical creation path overhead is a
percentage of the ingredient cost only,
`overheadCost = (Σ quantity * costPerUnit) * (pct/100)` with the
percentage defaulting to 10 when absent OR 0 (falsy coalescing), while
the secondary hook `useCostCalculation` computes overhead on the
ingredients-plus-labor base. -/
theorem C3_amended (d : RecipeFormData) (ings : List IngredientForm)
    (s p c m : ℚ) (lab ov : Option ℚ) :
    (calculateRecipeCosts d).overheadCost =
      (d.ingredients.map (fun ing => ing.quantity * ing.costPerUnit)).sum *
        (jsOrOpt d.overheadPercentage 10 / 100) ∧
    (useCostCalculation ings s p c m lab ov).overheadCost =
      ((useCostCalculation ings s p c m lab ov).totalIngredientsCost +
        (useCostCalculation ings s p c m lab ov).laborCost) *
        (ov.getD 10 / 100) := by
  constructor
  · show (d.ingredients.foldl
        (fun sum ing => sum + ing.quantity * ing.costPerUnit) 0) *
        (jsOrOpt d.overheadPercentage 10 / 100) = _
    rw [foldl_add_map (fun ing => ing.quantity * ing.costPerUnit) d.ingredients 0]
    ring
  · rfl

/-! ## Claim C4 -/

/-- Claim C4, counterexample: the authoritative pricing computation
`calculateRecipePricing` has NO guard for `marginPercentage ≥ 100`.
With costPerServing 1 and margin 100 it returns a suggested price of 2,
not 0. -/
theorem C4_counterexample :
    let c : Costs := { totalIngredientsCost := 0, laborCost := 0,
                       overheadCost := 0, totalCost := 1,
                       costPerServing := 1 }
    (calculateRecipePricing c 100).suggestedPrice = 2 ∧
    (calculateRecipePricing c 100).suggestedPrice ≠ 0 := by
  constructor <;> norm_num [calculateRecipePricing]

/-- Claim C4, amended: the explicit guard returning 0 for a margin of
100% or more lives in the `NovaReceita` preview helper
`calculateSuggestedPrice`, which returns 0 for every such margin; the
authoritative `calculateRecipePricing` applies no guard and returns the
finite value `costPerServing * (1 + marginPercentage/100)` (it cannot
produce `Infinity`/`NaN` since it performs no division by the margin). -/
theorem C4_amended (c : Costs) (m : ℚ) (fd : NovaFormState)
    (hm : 100 ≤ m) (hf : 100 ≤ fd.marginPercentage) :
    (calculateRecipePricing c m).suggestedPrice =
      c.costPerServing * (1 + m / 100) ∧
    novaSuggestedPrice fd = 0 := by
  refine ⟨rfl, ?_⟩
  unfold novaSuggestedPrice
  rw [jsOr_zero_right]
  rw [if_pos (by linarith : fd.marginPercentage / 100 ≥ 1)]

/-- Claim C4, witness for the amended theorem at margin 120 on the
service side and margin 100 on the preview side. -/
theorem C4_amended_witness :
    let c : Costs := { totalIngredientsCost := 0, laborCost := 0,
                       overheadCost := 0, totalCost := 1,
                       costPerServing := 1 }
    let fd : NovaFormState := { ingredients := [], servings := 4,
                                prepTime := 10, cookTime := 20,
                                marginPercentage := 100,
                                laborCostPerHour := 15,
                                overheadPercentage := 10 }
    (calculateRecipePricing c 120).suggestedPrice =
      c.costPerServing * (1 + 120 / 100) ∧
    novaSuggestedPrice fd = 0 :=
  C4_amended _ 120 _ (by norm_num) (by norm_num)

/-! ## Claim C5 -/

/-- Claim C5, counterexample: `calculateRecipeCosts` divides by the raw
`servings` with no `max(servings, 1)` fallback, so a servings value of
0 yields a non-finite costPerServing (modelled as `none`), not the
finite `totalCost / max(servings, 1)` the claim states. -/
theorem C5_counterexample :
    let d : RecipeFormData := { title := "Bolo", description := "",
                                category := "bolos", servings := 0,
                                ingredients := [{ name := "Farinha",
                                                  quantity := 2, unit := "kg",
                                                  costPerUnit := 5 }],
                                instructions := [], prepTime := 0,
                                cookTime := 0, tags := [],
                                difficulty := "médio",
                                marginPercentage := 35,
                                laborCostPerHour := none,
                                overheadPercentage := none }
    (calculateRecipeCosts d).costPerServing ≠
      some ((calculateRecipeCosts d).totalCost / max d.servings 1) := by
  simp [calculateRecipeCosts, jsDiv]

/-- Claim C5, amended: the canonical `calculateRecipeCosts` computes
`costPerServing = totalCost / servings` directly, which is non-finite
exactly when `servings = 0`; the `max(servings, 1)` fallback belongs to
the `NovaReceita` preview helper `calculateCostPerServing`, which at
`servings = 0` returns `totalCost / 1 = totalCost` and is always
finite. -/
theorem C5_amended (d : RecipeFormData) (fd : NovaFormState) :
    ((calculateRecipeCosts d).costPerServing = none ↔ d.servings = 0) ∧
    (d.servings ≠ 0 → (calculateRecipeCosts d).costPerServing =
      some ((calculateRecipeCosts d).totalCost / d.servings)) ∧
    novaCostPerServing fd =
      novaTotalCost fd / max (jsOr fd.servings 1) 1 ∧
    (fd.servings = 0 → novaCostPerServing fd = novaTotalCost fd) := by
  refine ⟨?_, ?_, rfl, ?_⟩
  · simp only [calculateRecipeCosts, jsDiv]
    split <;> simp_all
  · intro h
    simp only [calculateRecipeCosts, jsDiv, if_neg h]
  · intro h
    unfold novaCostPerServing jsOr
    rw [if_pos h]
    norm_num

/-- Claim C5, witness: a zero-servings form on both paths. -/
theorem C5_witness :
    let d : RecipeFormData := { title := "Bolo", description := "",
                                category := "bolos", servings := 0,
                                ingredients := [{ name := "Farinha",
                                                  quantity := 2, unit := "kg",
                                                  costPerUnit := 5 }],
                                instructions := [], prepTime := 0,
                                cookTime := 0, tags := [],
                                difficulty := "médio",
                                marginPercentage := 35,
                                laborCostPerHour := none,
                                overheadPercentage := none }
    let fd : NovaFormState := { ingredients := [{ name := "Farinha",
                                                  quantity := 2, unit := "kg",
                                                  costPerUnit := 5 }],
                                servings := 0, prepTime := 0, cookTime := 0,
                                marginPercentage := 35,
                                laborCostPerHour := 0,
                                overheadPercentage := 0 }
    (calculateRecipeCosts d).costPerServing = none ∧
    novaCostPerServing fd = novaTotalCost fd :=
  ⟨(C5_amended _ { ingredients := [], servings := 0, prepTime := 0,
                   cookTime := 0, marginPercentage := 35,
                   laborCostPerHour := 0, overheadPercentage := 0 }).1.mpr rfl,
   (C5_amended { title := "", description := "", category := "",
                 servings := 1, ingredients := [], instructions := [],
                 prepTime := 0, cookTime := 0, tags := [],
                 difficulty := "", marginPercentage := 35 } _).2.2.2 rfl⟩

/-! ## Claim C9 -/

/-- Claim C9: an explicitly supplied 0 for `laborCostPerHour` or
`overheadPercentage` is treated as absent by `calculateRecipeCosts`
(falsy coalescing): the labor rate falls back to 15 and the overhead
percentage to 10, so a caller cannot request a zero labor rate or zero
overhead. -/
theorem C9_falsy_defaults :
    (∀ d : RecipeFormData, d.laborCostPerHour = some 0 →
      (calculateRecipeCosts d).laborCost =
        ((d.prepTime + d.cookTime) / 60) * 15) ∧
    (∀ d : RecipeFormData, d.overheadPercentage = some 0 →
      (calculateRecipeCosts d).overheadCost =
        (calculateRecipeCosts d).totalIngredientsCost * (10 / 100)) := by
  constructor <;> intro d h <;> simp [calculateRecipeCosts, jsOrOpt, h]

/-- Claim C9, witness: one hour of work at an explicit rate of 0 is
billed at 15, and an explicit overhead percentage of 0 still charges
10% of the 100 of ingredient cost. -/
theorem C9_witness :
    let d : RecipeFormData := { title := "Bolo", description := "",
                                category := "bolos", servings := 1,
                                ingredients := [{ name := "Farinha",
                                                  quantity := 1, unit := "kg",
                                                  costPerUnit := 100 }],
                                instructions := [], prepTime := 60,
                                cookTime := 0, tags := [],
                                difficulty := "médio",
                                marginPercentage := 35,
                                laborCostPerHour := some 0,
                                overheadPercentage := some 0 }
    (calculateRecipeCosts d).laborCost = 15 ∧
    (calculateRecipeCosts d).overheadCost = 10 := by
  refine ⟨(C9_falsy_defaults.1 _ rfl).trans (by norm_num), ?_⟩
  refine (C9_falsy_defaults.2 _ rfl).trans ?_
  norm_num [calculateRecipeCosts]

/-! ## Claim C10 -/

/-- Claim C10: for every cost breakdown with positive costPerServing the
persisted real margin `profitMargin` computed by
`calculateRecipePricing` equals the requested `marginPercentage`
exactly (over exact rational arithmetic), and when costPerServing is 0
the `profitMargin` is 0. -/
theorem C10_profitMargin_echoes_margin (costs : Costs) (m : ℚ) :
    (0 < costs.costPerServing →
      (calculateRecipePricing costs m).profitMargin = m) ∧
    (costs.costPerServing = 0 →
      (calculateRecipePricing costs m).profitMargin = 0) := by
  constructor
  · intro h
    have hne : costs.costPerServing ≠ 0 := ne_of_gt h
    simp only [calculateRecipePricing, if_pos h]
    field_simp
    ring
  · intro h
    simp [calculateRecipePricing, h]

/-- Claim C10, witness at costPerServing 2 with margin 35, and at
costPerServing 0. -/
theorem C10_witness :
    (calculateRecipePricing
      { totalIngredientsCost := 1, laborCost := 0, overheadCost := 1,
        totalCost := 2, costPerServing := 2 } 35).profitMargin = 35 ∧
    (calculateRecipePricing
      { totalIngredientsCost := 0, laborCost := 0, overheadCost := 0,
        totalCost := 0, costPerServing := 0 } 35).profitMargin = 0 :=
  ⟨(C10_profitMargin_echoes_margin _ 35).1 (by norm_num),
   (C10_profitMargin_echoes_margin _ 35).2 rfl⟩

/-! ## Claim C6 -/

/-- Claim C6: `validateRecipeData` returns exactly one error per
violated rule — never fewer (no short-circuiting) and never more (no
duplicates) — in the fixed order title, category, servings,
ingredient-list presence, then per-ingredient checks in list order
(name, quantity, cost with 1-based index labels), then margin; and
`isValid` is true iff the error list is empty. -/
theorem C6_validator_complete (data : RecipeFormData) :
    (validateRecipeData data).errors = specErrors data ∧
    ((validateRecipeData data).isValid = true ↔
      (validateRecipeData data).errors = []) ∧
    (validateRecipeData data).errors.length = violatedRuleCount data := by
  refine ⟨validateRecipeData_errors data, validateRecipeData_isValid data, ?_⟩
  rw [validateRecipeData_errors data]
  unfold specErrors violatedRuleCount
  have hflat : (data.ingredients.enum.flatMap ingredientRuleErrors).length =
      (data.ingredients.map (fun ing =>
        (if ing.name.trim = "" then 1 else 0) +
        (if ing.quantity ≤ 0 then 1 else 0) +
        (if ing.costPerUnit ≤ 0 then 1 else 0))).sum := by
    rw [List.length_flatMap]
    rw [show List.length ∘ ingredientRuleErrors =
        ((fun ing : IngredientForm =>
          (if ing.name.trim = "" then 1 else 0) +
          (if ing.quantity ≤ 0 then 1 else 0) +
          (if ing.costPerUnit ≤ 0 then 1 else 0)) ∘ Prod.snd) from
      funext ingredientRuleErrors_length]
    rw [← List.map_map, List.enum_map_snd]
  simp only [List.length_append, apply_ite List.length, List.length_singleton,
    List.length_nil, hflat]

/-! ## Claim C7 -/

/-- Claim C7: the margin error is reported precisely when
`marginPercentage ≤ 0` or `marginPercentage ≥ 100` (so exactly 0, any
negative value, exactly 100 and anything above are rejected while 0.01
and 99.99 are accepted), and the servings error precisely when
`servings ≤ 0` (0 rejected, 1 accepted). -/
theorem C7_margin_servings_boundary (data : RecipeFormData) :
    (marginErr ∈ (validateRecipeData data).errors ↔
      data.marginPercentage ≤ 0 ∨ 100 ≤ data.marginPercentage) ∧
    (servingsErr ∈ (validateRecipeData data).errors ↔
      data.servings ≤ 0) := by
  rw [validateRecipeData_errors data]
  unfold specErrors
  constructor
  · simp only [List.mem_append, mem_ite_singleton, List.mem_flatMap]
    constructor
    · rintro (((((⟨_, he⟩ | ⟨_, he⟩) | ⟨_, he⟩) | ⟨_, he⟩) | ⟨p, _, hp⟩) | ⟨hc, _⟩)
      · exact absurd he (by decide)
      · exact absurd he (by decide)
      · exact absurd he (by decide)
      · exact absurd he (by decide)
      · obtain ⟨t, ht⟩ := mem_ingredientRuleErrors_shape _ p hp
        exact absurd ht (marginErr_ne_ingrediente t)
      · exact hc
    · intro hc
      exact Or.inr ⟨hc, trivial⟩
  · simp only [List.mem_append, mem_ite_singleton, List.mem_flatMap]
    constructor
    · rintro (((((⟨_, he⟩ | ⟨_, he⟩) | ⟨hc, _⟩) | ⟨_, he⟩) | ⟨p, _, hp⟩) | ⟨_, he⟩)
      · exact absurd he (by decide)
      · exact absurd he (by decide)
      · exact hc
      · exact absurd he (by decide)
      · obtain ⟨t, ht⟩ := mem_ingredientRuleErrors_shape _ p hp
        exact absurd ht (servingsErr_ne_ingrediente t)
      · exact absurd he (by decide)
    · intro hc
      exact Or.inl (Or.inl (Or.inl (Or.inr ⟨hc, trivial⟩)))

/-! ## Claim C8 -/

/-- Claim C8: for every non-empty recipe collection `getDashboardStats`
returns averageCost equal to the arithmetic mean of `costs.totalCost`,
averageMargin equal to the arithmetic mean of `pricing.profitMargin`,
and mostProfitableRecipe equal to the arg-max over `pricing.profit`
with the first-encountered recipe winning on ties (every recipe before
the winner has strictly smaller profit, every one after has profit at
most that of the winner). -/
theorem C8_dashboard_stats (recipes : List RecipeDoc) (hne : recipes ≠ []) :
    (getDashboardStats recipes).averageCost =
      (recipes.map (fun r => r.costs.totalCost)).sum / recipes.length ∧
    (getDashboardStats recipes).averageMargin =
      (recipes.map (fun r => r.pricing.profitMargin)).sum / recipes.length ∧
    ∃ l₁ best l₂, recipes = l₁ ++ best :: l₂ ∧
      (getDashboardStats recipes).mostProfitableRecipe =
        some (MostProfitable.mk best.id best.title best.pricing.profit) ∧
      (∀ x ∈ l₁, x.pricing.profit < best.pricing.profit) ∧
      (∀ x ∈ l₂, x.pricing.profit ≤ best.pricing.profit) := by
  obtain ⟨first, rest, rfl⟩ := List.exists_cons_of_ne_nil hne
  have hlen : (first :: rest).length ≠ 0 := by simp
  unfold getDashboardStats
  rw [if_neg hlen]
  refine ⟨?_, ?_, ?_⟩
  · show ((first :: rest).foldl (fun sum r => sum + r.costs.totalCost) 0) /
        ((first :: rest).length : ℚ) = _
    rw [foldl_add_map (fun r : RecipeDoc => r.costs.totalCost) (first :: rest) 0,
      zero_add]
  · show ((first :: rest).foldl (fun sum r => sum + r.pricing.profitMargin) 0) /
        ((first :: rest).length : ℚ) = _
    rw [foldl_add_map (fun r : RecipeDoc => r.pricing.profitMargin)
      (first :: rest) 0, zero_add]
  · obtain ⟨l₁, l₂, hdec, hlt, hle⟩ := foldl_mostProfitableStep rest first
    exact ⟨l₁, rest.foldl mostProfitableStep first, l₂, hdec, rfl, hlt, hle⟩

/-- Claim C8, witness: three recipes with total costs 10, 20, 30 give
averageCost exactly 20, and with profits 5, 3, 5 the arg-max returns the
first of the two tied recipes. -/
theorem C8_witness :
    let rA : RecipeDoc := { id := "a", title := "Bolo A",
                            costs := { totalIngredientsCost := 5,
                                       laborCost := 4, overheadCost := 1,
                                       totalCost := 10, costPerServing := 5 },
                            pricing := { marginPercentage := 50,
                                         suggestedPrice := 10,
                                         finalPrice := 10, profit := 5,
                                         profitMargin := 100 },
                            createdAt := 3 }
    let rB : RecipeDoc := { id := "b", title := "Bolo B",
                            costs := { totalIngredientsCost := 10,
                                       laborCost := 8, overheadCost := 2,
                                       totalCost := 20, costPerServing := 10 },
                            pricing := { marginPercentage := 30,
                                         suggestedPrice := 13,
                                         finalPrice := 13, profit := 3,
                                         profitMargin := 30 },
                            createdAt := 2 }
    let rC : RecipeDoc := { id := "c", title := "Bolo C",
                            costs := { totalIngredientsCost := 15,
                                       laborCost := 12, overheadCost := 3,
                                       totalCost := 30, costPerServing := 15 },
                            pricing := { marginPercentage := 20,
                                         suggestedPrice := 20,
                                         finalPrice := 20, profit := 5,
                                         profitMargin := 50 },
                            createdAt := 1 }
    (getDashboardStats [rA, rB, rC]).averageCost = 20 ∧
    (getDashboardStats [rA, rB, rC]).mostProfitableRecipe =
      some (MostProfitable.mk "a" "Bolo A" 5) := by
  refine ⟨((C8_dashboard_stats _ (by simp)).1).trans (by norm_num), ?_⟩
  rfl

end Confeitaria
